import Mathlib

/-!
# Klarna Kosma Settings: the `KlarnaKosmaConnect` client workflow

A shallow embedding of the class `KlarnaKosmaConnect` of
`klarna_kosma_settings.js`.  JavaScript values are a small value type with the
truthiness and property access of the language.  The collaborators the class
talks to (the backend behind `frm.call`, the injected script element and the
`window.XS2A` widget) form a `World` that answers every request; the document
is the list of its elements and is passed along.  Every method of the class
becomes a function that returns the events it produces, in the order in which
they happen, together with the state of the promise it returns.  A promise that
is awaited settles before the next event of the run; a promise that nobody
awaits or catches adds an unhandled rejection when it is rejected.
-/

namespace KlarnaKosma

/-! ## JavaScript values -/

/-- The JavaScript values that travel through the workflow. -/
inductive JsVal where
  | undefined
  | null
  | bool (b : Bool)
  | num (n : Int)
  | str (s : String)
  | arr (items : List JsVal)
  | obj (fields : List (String × JsVal))

/-- JavaScript truthiness, as tested by `x ? a : b`, `!x` and `if (x)`. -/
def truthy : JsVal → Bool
  | .undefined => false
  | .null => false
  | .bool b => b
  | .num n => n != 0
  | .str s => s != ""
  | .arr _ => true
  | .obj _ => true

/-- Property access `v[key]` for a key that is not a built-in property: a
`TypeError` on `undefined` and `null`, the field of an object, and `undefined`
elsewhere. -/
def getProp (v : JsVal) (key : String) : Except String JsVal :=
  match v with
  | .undefined =>
      .error ("TypeError: Cannot read properties of undefined (reading " ++ key ++ ")")
  | .null =>
      .error ("TypeError: Cannot read properties of null (reading " ++ key ++ ")")
  | .obj fields => .ok ((fields.lookup key).getD .undefined)
  | _ => .ok .undefined

/-! ## The collaborators -/

/-- The backend methods reached through `frm.call`. -/
inductive Method where
  | get_client_token
  | sync_transactions
  | fetch_accounts_and_bank
  | add_bank_accounts
  deriving DecidableEq, Repr

/-- The response object of a remote call: `message` and `exc`, each
`undefined` when absent. -/
structure Response where
  message : JsVal
  exc : JsVal

/-- How the promise returned by `frm.call` settles. -/
inductive Settled where
  | resolved (resp : Response)
  | rejected (err : String)

/-- An element of the document, with the attributes the code reads or sets. -/
structure Element where
  tagName : String
  type : String
  async : Bool
  src : String
  deriving DecidableEq, Repr

/-- The events an injected script element can fire. -/
inductive ScriptEvent where
  | load
  | error
  | abort
  deriving DecidableEq, Repr

/-- What `window.XS2A.startFlow` does with the callbacks it is given: it throws,
or it later invokes one of them, or none. -/
inductive WidgetOutcome where
  | throws (err : String)
  | finished
  | error (err : String)
  | aborted
  | silent

/-- Everything outside the class: the backend, the event of the script element and
the widget (`none` when `window.XS2A` is not defined). -/
structure World where
  frm_call : Method → JsVal → Settled
  scriptEvent : ScriptEvent
  XS2A : Option (JsVal → WidgetOutcome)

/-- The observable events of a run. -/
inductive Event where
  | call (method : Method) (args : JsVal)
  | settled (method : Method) (resolved : Bool)
  | appendChild (el : Element)
  | scriptFired (ev : ScriptEvent)
  | startFlow (client_token : JsVal)
  | onFinished
  | onError
  | onAbort
  | console_log (msg : String)
  | console_error (msg : String)
  | frappe_throw (msg : String)
  | show_alert (msg : String)
  | unhandledRejection (err : String)

/-- The result of an `async` method: its events and the state of the promise
it returns once it has settled. -/
structure Async (α : Type) where
  trace : List Event
  result : Except String α

/-- The events of a promise nobody awaits or catches: a rejection is
unhandled. -/
def dropPromise {α : Type} (p : Async α) : List Event :=
  match p.result with
  | .ok _ => p.trace
  | .error e => p.trace ++ [.unhandledRejection e]

/-! ## The class -/

/-- The options object given to the constructor (`frm` is always passed). -/
structure Opts where
  company : JsVal
  account : JsVal

/-- The fields of an instance after the assignments of the constructor. -/
structure KlarnaKosmaConnect where
  company : JsVal
  account : JsVal
  flow : String

/-- Lines 58-61: `Object.assign(this, opts)` and the derivation of `flow`. -/
def KlarnaKosmaConnect.new (opts : Opts) : KlarnaKosmaConnect :=
  { company := opts.company
    account := opts.account
    flow := if truthy opts.account then "transactions" else "accounts" }

/-- One `frm.call`: the call is issued and its promise settles. -/
def frm_call (w : World) (method : Method) (args : JsVal) : Async Response :=
  match w.frm_call method args with
  | .resolved resp => ⟨[.call method args, .settled method true], .ok resp⟩
  | .rejected err => ⟨[.call method args, .settled method false], .error err⟩

/-- Lines 77-85: the call, then `resp => resp.message`. -/
def get_client_token (me : KlarnaKosmaConnect) (w : World) : Async JsVal :=
  let p := frm_call w .get_client_token (.obj [("current_flow", .str me.flow)])
  match p.result with
  | .ok resp => ⟨p.trace, .ok resp.message⟩
  | .error e => ⟨p.trace, .error e⟩

/-- The address of the XS2A launcher script. -/
def src : String := "https://x.klarnacdn.net/xs2a/app-launcher/v0/xs2a-app-launcher.js"

/-- The selector `script[src="..."]` applied to one element. -/
def isLauncher (el : Element) : Bool :=
  el.tagName == "script" && el.src == src

/-- State of the promise of `load_script` when its executor has run. -/
inductive LoadState where
  | resolved
  | pending
  deriving DecidableEq, Repr

/-- Lines 93-111: the executor of the promise of `load_script`, on the document
as the list of its elements. -/
def load_script (document : List Element) : List Element × List Event × LoadState :=
  if document.any isLauncher then
    (document, [], .resolved)
  else
    let el : Element := { tagName := "script", type := "text/javascript", async := true, src := src }
    (document ++ [el], [.appendChild el], .pending)

/-- The listeners of lines 106-108: `load` resolves, `error` and `abort`
reject. -/
def scriptListener (ev : ScriptEvent) : Except String Unit :=
  match ev with
  | .load => .ok ()
  | .error => .error "script error"
  | .abort => .error "script abort"

/-- The expression `await this.load_script()`: a pending promise waits for the
event of the injected element. -/
def await_load_script (w : World) (document : List Element) :
    List Element × Async Unit :=
  match load_script document with
  | (doc, t, .resolved) => (doc, ⟨t, .ok ()⟩)
  | (doc, t, .pending) => (doc, ⟨t ++ [.scriptFired w.scriptEvent], scriptListener w.scriptEvent⟩)

/-- Lines 154-170: the value is `none` when the function returns
`undefined`. -/
def fetch_accounts_data (session : JsVal) (w : World) : List Event × Option Response :=
  match getProp session "session_id_short" with
  | .error e => ([.console_log e], none)
  | .ok sid =>
      let p := frm_call w .fetch_accounts_and_bank (.obj [("session_id_short", sid)])
      match p.result with
      | .error e => (p.trace ++ [.console_log e], none)
      | .ok data =>
          if !truthy data.message || truthy data.exc then
            (p.trace ++ [.frappe_throw "Failed to fetch Bank Accounts.",
                         .console_log "Failed to fetch Bank Accounts."], none)
          else
            (p.trace, some data)

/-- Lines 172-194: the promise of `frm.call(...).then(...)` is not awaited, so
the `try` does not see its rejection. -/
def add_bank_accounts (me : KlarnaKosmaConnect) (w : World) (flow_data : Option Response)
    (bank_name : JsVal) : List Event :=
  match flow_data with
  | none => [.console_log "TypeError: Cannot read properties of undefined (reading message)"]
  | some data =>
      if truthy data.message then
        let p := frm_call w .add_bank_accounts
          (.obj [("accounts", data.message), ("company", me.company), ("bank_name", bank_name)])
        match p.result with
        | .ok r =>
            if !truthy r.exc then p.trace ++ [.show_alert "Bank accounts added"] else p.trace
        | .error e => p.trace ++ [.unhandledRejection e]
      else []

/-- Lines 136-141. -/
def complete_accounts_flow (me : KlarnaKosmaConnect) (session : JsVal) (w : World) :
    Async Unit :=
  let (t, flow_data) := fetch_accounts_data session w
  match flow_data with
  | none =>
      ⟨t, .error "TypeError: Cannot read properties of undefined (reading message)"⟩
  | some data =>
      match getProp data.message "bank_name" with
      | .error e => ⟨t, .error e⟩
      | .ok bank_name => ⟨t ++ add_bank_accounts me w (some data) bank_name, .ok ()⟩

/-- Lines 143-152. -/
def complete_transactions_flow (me : KlarnaKosmaConnect) (w : World) : Async Unit :=
  let p := frm_call w .sync_transactions (.obj [("account", me.account)])
  match p.result with
  | .ok _ => ⟨p.trace, .ok ()⟩
  | .error e => ⟨p.trace, .error e⟩

/-- Lines 113-134: `startFlow` inside the `try`, and the callback the widget
invokes afterwards. -/
def startKlarnaOpenBankingXS2AApp (me : KlarnaKosmaConnect) (session : JsVal) (w : World) :
    List Event :=
  match w.XS2A with
  | none => [.console_error "TypeError: Cannot read properties of undefined (reading startFlow)"]
  | some startFlow =>
      match getProp session "client_token" with
      | .error e => [.console_error e]
      | .ok client_token =>
          match startFlow client_token with
          | .throws e => [.startFlow client_token, .console_error e]
          | .finished =>
              [.startFlow client_token, .onFinished]
                ++ dropPromise (complete_accounts_flow me session w)
          | .error e =>
              [.startFlow client_token, .onError,
               .console_error ("onError: something bad happened. " ++ e)]
          | .aborted =>
              [.startFlow client_token, .onAbort, .console_log "Kosma Authentication Aborted"]
          | .silent => [.startFlow client_token]

/-- Lines 87-91: the value assigned to `window.onXS2AReady` is the `undefined`
that `startKlarnaOpenBankingXS2AApp` returns, so the assignment has no effect. -/
def render_xs2a_app (me : KlarnaKosmaConnect) (session : JsVal) (w : World)
    (document : List Element) : List Element × Async Unit :=
  let (doc, p) := await_load_script w document
  match p.result with
  | .error e => (doc, ⟨p.trace, .error e⟩)
  | .ok _ => (doc, ⟨p.trace ++ startKlarnaOpenBankingXS2AApp me session w, .ok ()⟩)

/-- Lines 65-75. -/
def init_kosma_connect (me : KlarnaKosmaConnect) (w : World) (document : List Element) :
    List Element × Async Unit :=
  if me.flow == "accounts" then
    let p := get_client_token me w
    match p.result with
    | .error e => (document, ⟨p.trace, .error e⟩)
    | .ok session =>
        let (doc, r) := render_xs2a_app me session w document
        (doc, ⟨p.trace ++ dropPromise r, .ok ()⟩)
  else
    (document, ⟨dropPromise (complete_transactions_flow me w), .ok ()⟩)

/-- A run: `new KlarnaKosmaConnect(opts)`, lines 57-63, with everything the
workflow it starts goes on to do. -/
structure Run where
  me : KlarnaKosmaConnect
  document : List Element
  trace : List Event

/-- The constructor and the workflow it starts. -/
def run (opts : Opts) (w : World) (document : List Element) : Run :=
  let me := KlarnaKosmaConnect.new opts
  let (doc, p) := init_kosma_connect me w document
  { me := me, document := doc, trace := dropPromise p }

/-! ## Observations on traces -/

/-- The remote calls of a trace, in the order in which they are issued. -/
def remoteCalls : List Event → List (Method × JsVal)
  | [] => []
  | .call m args :: rest => (m, args) :: remoteCalls rest
  | _ :: rest => remoteCalls rest

/-- The arguments of the calls of one method, in order. -/
def callsOf (m : Method) (trace : List Event) : List JsVal :=
  ((remoteCalls trace).filter (fun c => c.1 == m)).map (fun c => c.2)

/-- An event of the script element or of the widget. -/
def isScriptOrWidget : Event → Bool
  | .appendChild _ => true
  | .scriptFired _ => true
  | .startFlow _ => true
  | .onFinished => true
  | .onError => true
  | .onAbort => true
  | _ => false

/-- An event the user gets to see, or an error nobody handled. -/
def isSurfaced : Event → Bool
  | .frappe_throw _ => true
  | .show_alert _ => true
  | .unhandledRejection _ => true
  | _ => false

/-- The widget was started. -/
def isStartFlow : Event → Bool
  | .startFlow _ => true
  | _ => false

/-- An element was injected into the document. -/
def isAppendChild : Event → Bool
  | .appendChild _ => true
  | _ => false

/-- The widget invoked `onError` or `onAbort`. -/
def isErrorOrAbort : Event → Bool
  | .onError => true
  | .onAbort => true
  | _ => false

/-- A success notification. -/
def isShowAlert : Event → Bool
  | .show_alert _ => true
  | _ => false

/-- A line written to the console by `console.log`. -/
def isConsoleLog : Event → Bool
  | .console_log _ => true
  | _ => false

/-- The events of the part of the workflow that follows the widget: remote
calls and their settling, console lines, messages and unhandled rejections. -/
def isAfterWidget : Event → Bool
  | .call _ _ => true
  | .settled _ _ => true
  | .console_log _ => true
  | .console_error _ => true
  | .frappe_throw _ => true
  | .show_alert _ => true
  | .unhandledRejection _ => true
  | _ => false

/-- The call in flight after one more event, starting from the call in flight
before it (`some none` when there is none); `none` once a call was issued while
another was in flight, or a promise settled whose call was not in flight. -/
def flightStep : Option (Option Method) → Event → Option (Option Method)
  | some none, .call m _ => some (some m)
  | some (some _), .call _ _ => none
  | some (some m), .settled n _ => if m = n then some none else none
  | some none, .settled _ _ => none
  | state, _ => state

/-- No two remote calls of the trace are in flight at the same time, and at its
end every call has settled. -/
def oneAtATime (trace : List Event) : Bool :=
  match trace.foldl flightStep (some none) with
  | some none => true
  | _ => false

/-- Whether a call of `earlier` has resolved, after one more event; `none` once
a call of `later` was issued before that. -/
def afterStep (later earlier : Method) : Option Bool → Event → Option Bool
  | some seen, .settled m ok => some (seen || (m == earlier && ok))
  | some seen, .call m _ => if m == later && !seen then none else some seen
  | state, _ => state

/-- Every call of `later` in the trace is issued after a call of `earlier` has
resolved. -/
def onlyAfterResolved (later earlier : Method) (trace : List Event) : Bool :=
  (trace.foldl (afterStep later earlier) (some false)).isSome

/-- Number of launcher script elements in a document. -/
def launcherCount (document : List Element) : Nat :=
  document.countP isLauncher

/-- The document after `n` consecutive `load_script` calls. -/
def loadTimes : Nat → List Element → List Element
  | 0, document => document
  | n + 1, document => loadTimes n (load_script document).1

/-! ## Concrete contexts and worlds -/

/-- A context with both a company and an account. -/
def bothSet : Opts := { company := .str "C1", account := .str "A1" }

/-- A context with neither. -/
def neitherSet : Opts := { company := .undefined, account := .undefined }

/-- The linking context of the scenarios. -/
def linkingC1 : Opts := { company := .str "C1", account := .undefined }

/-- The sync context of the scenarios. -/
def syncA1 : Opts := { company := .undefined, account := .str "A1" }

/-- The session of the scenarios. -/
def sessionTS : JsVal := .obj [("client_token", .str "T"), ("session_id_short", .str "S")]

/-- The fetched payload of the scenarios. -/
def payloadA1 : JsVal :=
  .obj [("accounts", .arr [.obj [("id", .str "A1")]]), ("bank_name", .str "Bank X")]

/-- A backend on which every call succeeds, as in the happy path. -/
def happyBackend : Method → JsVal → Settled
  | .get_client_token, _ => .resolved { message := sessionTS, exc := .undefined }
  | .fetch_accounts_and_bank, _ => .resolved { message := payloadA1, exc := .undefined }
  | _, _ => .resolved { message := .undefined, exc := .undefined }

/-- The world of the happy path: the script loads and the widget finishes. -/
def happyWorld : World :=
  { frm_call := happyBackend, scriptEvent := .load, XS2A := some (fun _ => .finished) }

/-- The happy backend, except that fetching the accounts yields no payload. -/
def noPayloadBackend : Method → JsVal → Settled
  | .fetch_accounts_and_bank, _ => .resolved { message := .undefined, exc := .undefined }
  | m, args => happyBackend m args

/-- The happy world with the backend that yields no payload. -/
def noPayloadWorld : World := { happyWorld with frm_call := noPayloadBackend }

/-- The happy backend, except that adding the accounts fails. -/
def addFailsBackend : Method → JsVal → Settled
  | .add_bank_accounts, _ => .rejected "add_bank_accounts failed"
  | m, args => happyBackend m args

/-- The happy world with the backend on which adding the accounts fails. -/
def addFailsWorld : World := { happyWorld with frm_call := addFailsBackend }

/-- The happy world, except that the user aborts the widget. -/
def abortedWorld : World := { happyWorld with XS2A := some (fun _ => .aborted) }

/-- The happy world, except that the session cannot be acquired. -/
def tokenFailsWorld : World :=
  { happyWorld with frm_call := fun _ _ => .rejected "get_client_token failed" }

/-- The launcher script element. -/
def launcher : Element :=
  { tagName := "script", type := "text/javascript", async := true, src := src }

/-! ## Mode derivation -/

theorem new_flow_of_truthy (opts : Opts) (h : truthy opts.account = true) :
    (KlarnaKosmaConnect.new opts).flow = "transactions" := by
  simp [KlarnaKosmaConnect.new, h]

theorem new_flow_of_falsy (opts : Opts) (h : truthy opts.account = false) :
    (KlarnaKosmaConnect.new opts).flow = "accounts" := by
  simp [KlarnaKosmaConnect.new, h]

/-- C1, as stated, fails: with both company and account set the flow is
"transactions" although the company is set, and with neither set the flow is
"accounts" although the company is unset. -/
theorem flow_derivation_counterexample :
    ¬ ((KlarnaKosmaConnect.new bothSet).flow = "transactions" ↔
        (truthy bothSet.account = true ∧ truthy bothSet.company = false)) ∧
    ¬ ((KlarnaKosmaConnect.new neitherSet).flow = "accounts" ↔
        (truthy neitherSet.company = true ∧ truthy neitherSet.account = false)) := by
  decide

/-- C1, amended: for every context the flow is "transactions" if and only if
the account is set (truthy) and "accounts" if and only if it is not, whatever
the company; hence on every context with exactly one of the two set the flow is
"transactions" iff account is set and company unset, and "accounts" iff company
is set and account unset. -/
theorem flow_derivation (opts : Opts) :
    ((KlarnaKosmaConnect.new opts).flow = "transactions" ↔ truthy opts.account = true) ∧
    ((KlarnaKosmaConnect.new opts).flow = "accounts" ↔ truthy opts.account = false) ∧
    (truthy opts.company ≠ truthy opts.account →
      ((KlarnaKosmaConnect.new opts).flow = "transactions" ↔
        (truthy opts.account = true ∧ truthy opts.company = false)) ∧
      ((KlarnaKosmaConnect.new opts).flow = "accounts" ↔
        (truthy opts.company = true ∧ truthy opts.account = false))) := by
  cases ha : truthy opts.account <;> cases hc : truthy opts.company <;>
    simp [KlarnaKosmaConnect.new, ha]

/-- Witness of C1 at the linking context of the scenarios. -/
theorem flow_derivation_witness :
    truthy linkingC1.company ≠ truthy linkingC1.account ∧
    ((KlarnaKosmaConnect.new linkingC1).flow = "accounts" ↔
      (truthy linkingC1.company = true ∧ truthy linkingC1.account = false)) :=
  ⟨by decide, ((flow_derivation linkingC1).2.2 (by decide)).2⟩

/-! ## Sync runs -/

theorem run_of_truthy (opts : Opts) (w : World) (document : List Element)
    (h : truthy opts.account = true) :
    (run opts w document).trace
        = dropPromise (complete_transactions_flow (KlarnaKosmaConnect.new opts) w) ∧
      (run opts w document).document = document := by
  simp [run, init_kosma_connect, KlarnaKosmaConnect.new, h, dropPromise]

theorem remoteCalls_sync (me : KlarnaKosmaConnect) (w : World) :
    remoteCalls (dropPromise (complete_transactions_flow me w))
        = [(.sync_transactions, .obj [("account", me.account)])] ∧
      (dropPromise (complete_transactions_flow me w)).any isScriptOrWidget = false := by
  unfold complete_transactions_flow frm_call dropPromise
  cases w.frm_call .sync_transactions (.obj [("account", me.account)]) <;>
    simp [remoteCalls, isScriptOrWidget]

/-! ## Linking runs -/

theorem run_of_falsy_rejected (opts : Opts) (w : World) (document : List Element) (e : String)
    (h : truthy opts.account = false)
    (hc : w.frm_call .get_client_token (.obj [("current_flow", .str "accounts")])
      = .rejected e) :
    (run opts w document).trace
        = [.call .get_client_token (.obj [("current_flow", .str "accounts")]),
           .settled .get_client_token false, .unhandledRejection e] ∧
      (run opts w document).document = document := by
  simp [run, init_kosma_connect, KlarnaKosmaConnect.new, h, get_client_token, frm_call, hc,
    dropPromise]

theorem run_of_falsy_resolved (opts : Opts) (w : World) (document : List Element)
    (resp : Response) (h : truthy opts.account = false)
    (hc : w.frm_call .get_client_token (.obj [("current_flow", .str "accounts")])
      = .resolved resp) :
    (run opts w document).trace
        = [.call .get_client_token (.obj [("current_flow", .str "accounts")]),
           .settled .get_client_token true]
          ++ dropPromise (render_xs2a_app (KlarnaKosmaConnect.new opts) resp.message w document).2 ∧
      (run opts w document).document
        = (render_xs2a_app (KlarnaKosmaConnect.new opts) resp.message w document).1 := by
  simp [run, init_kosma_connect, KlarnaKosmaConnect.new, h, get_client_token, frm_call, hc,
    dropPromise]

/-! ## One remote call at a time -/

theorem flight_fetch_accounts_data (session : JsVal) (w : World) :
    (fetch_accounts_data session w).1.foldl flightStep (some none) = some none := by
  cases hs : getProp session "session_id_short" with
  | error e => simp [fetch_accounts_data, hs, flightStep]
  | ok sid =>
    cases hc : w.frm_call .fetch_accounts_and_bank (.obj [("session_id_short", sid)]) with
    | rejected e => simp [fetch_accounts_data, hs, frm_call, hc, flightStep]
    | resolved d =>
      by_cases hb : (!truthy d.message || truthy d.exc) = true <;>
        simp [fetch_accounts_data, hs, frm_call, hc, hb, flightStep]

theorem flight_add_bank_accounts (me : KlarnaKosmaConnect) (w : World)
    (flow_data : Option Response) (bank_name : JsVal) :
    (add_bank_accounts me w flow_data bank_name).foldl flightStep (some none) = some none := by
  cases flow_data with
  | none => simp [add_bank_accounts, flightStep]
  | some data =>
    cases hm : truthy data.message with
    | false => simp [add_bank_accounts, hm]
    | true =>
      cases hc : w.frm_call .add_bank_accounts
          (.obj [("accounts", data.message), ("company", me.company), ("bank_name", bank_name)]) with
      | rejected e => simp [add_bank_accounts, hm, frm_call, hc, flightStep]
      | resolved r =>
        cases hx : truthy r.exc <;> simp [add_bank_accounts, hm, frm_call, hc, hx, flightStep]

theorem flight_complete_accounts_flow (me : KlarnaKosmaConnect) (session : JsVal) (w : World) :
    (dropPromise (complete_accounts_flow me session w)).foldl flightStep (some none)
      = some none := by
  have h := flight_fetch_accounts_data session w
  rcases hf : fetch_accounts_data session w with ⟨t, flow_data⟩
  rw [hf] at h
  cases flow_data with
  | none => simpa [complete_accounts_flow, hf, dropPromise, List.foldl_append, flightStep] using h
  | some data =>
    cases hb : getProp data.message "bank_name" with
    | error e =>
      simpa [complete_accounts_flow, hf, hb, dropPromise, List.foldl_append, flightStep] using h
    | ok bank_name =>
      have h2 := flight_add_bank_accounts me w (some data) bank_name
      simp at h
      simp [complete_accounts_flow, hf, hb, dropPromise, List.foldl_append, h, h2]

theorem flight_startKlarnaOpenBankingXS2AApp (me : KlarnaKosmaConnect) (session : JsVal)
    (w : World) :
    (startKlarnaOpenBankingXS2AApp me session w).foldl flightStep (some none) = some none := by
  cases hx : w.XS2A with
  | none => simp [startKlarnaOpenBankingXS2AApp, hx, flightStep]
  | some startFlow =>
    cases ht : getProp session "client_token" with
    | error e => simp [startKlarnaOpenBankingXS2AApp, hx, ht, flightStep]
    | ok client_token =>
      cases ho : startFlow client_token with
      | finished =>
        simp [startKlarnaOpenBankingXS2AApp, hx, ht, ho, flightStep,
          flight_complete_accounts_flow]
      | _ => simp [startKlarnaOpenBankingXS2AApp, hx, ht, ho, flightStep]

theorem flight_render_xs2a_app (me : KlarnaKosmaConnect) (session : JsVal) (w : World)
    (document : List Element) :
    (dropPromise (render_xs2a_app me session w document).2).foldl flightStep (some none)
      = some none := by
  have h := flight_startKlarnaOpenBankingXS2AApp me session w
  cases hd : document.any isLauncher with
  | true =>
    simp [render_xs2a_app, await_load_script, load_script, hd, dropPromise, h]
  | false =>
    cases he : w.scriptEvent <;>
      simp [render_xs2a_app, await_load_script, load_script, hd, he, scriptListener,
        dropPromise, List.foldl_append, flightStep, h]

theorem flight_run (opts : Opts) (w : World) (document : List Element) :
    (run opts w document).trace.foldl flightStep (some none) = some none := by
  cases ha : truthy opts.account with
  | true =>
    rw [(run_of_truthy opts w document ha).1]
    cases hc : w.frm_call .sync_transactions
        (.obj [("account", (KlarnaKosmaConnect.new opts).account)]) <;>
      simp [complete_transactions_flow, frm_call, hc, dropPromise, flightStep]
  | false =>
    cases hc : w.frm_call .get_client_token (.obj [("current_flow", .str "accounts")]) with
    | rejected e => simp [run_of_falsy_rejected opts w document e ha hc, flightStep]
    | resolved resp =>
      simp [(run_of_falsy_resolved opts w document resp ha hc).1, flightStep,
        flight_render_xs2a_app]
/-! ## Order of the remote calls -/

theorem after_seen (later earlier : Method) (trace : List Event) :
    trace.foldl (afterStep later earlier) (some true) = some true := by
  induction trace with
  | nil => rfl
  | cons ev rest ih => cases ev <;> simpa [afterStep] using ih

theorem after_fetch_accounts_data (session : JsVal) (w : World) (seen : Bool) :
    ∃ s, (fetch_accounts_data session w).1.foldl
          (afterStep .add_bank_accounts .fetch_accounts_and_bank) (some seen) = some s ∧
      ((fetch_accounts_data session w).2.isSome = true → s = true) := by
  cases hs : getProp session "session_id_short" with
  | error e => simp [fetch_accounts_data, hs, afterStep]
  | ok sid =>
    cases hc : w.frm_call .fetch_accounts_and_bank (.obj [("session_id_short", sid)]) with
    | rejected e => simp [fetch_accounts_data, hs, frm_call, hc, afterStep]
    | resolved d =>
      by_cases hb : (!truthy d.message || truthy d.exc) = true <;>
        simp [fetch_accounts_data, hs, frm_call, hc, hb, afterStep]

theorem after_complete_accounts_flow (me : KlarnaKosmaConnect) (session : JsVal) (w : World)
    (seen : Bool) :
    ((dropPromise (complete_accounts_flow me session w)).foldl
      (afterStep .add_bank_accounts .fetch_accounts_and_bank) (some seen)).isSome = true := by
  obtain ⟨s, h, hs⟩ := after_fetch_accounts_data session w seen
  rcases hf : fetch_accounts_data session w with ⟨t, flow_data⟩
  rw [hf] at h hs
  simp only at h hs
  cases flow_data with
  | none => simp [complete_accounts_flow, hf, dropPromise, List.foldl_append, h, afterStep]
  | some data =>
    cases hb : getProp data.message "bank_name" with
    | error e =>
      simp [complete_accounts_flow, hf, hb, dropPromise, List.foldl_append, h, afterStep]
    | ok bank_name =>
      have hs' : s = true := hs rfl
      subst hs'
      simp [complete_accounts_flow, hf, hb, dropPromise, List.foldl_append, h, after_seen]

theorem after_startKlarnaOpenBankingXS2AApp (me : KlarnaKosmaConnect) (session : JsVal)
    (w : World) (seen : Bool) :
    ((startKlarnaOpenBankingXS2AApp me session w).foldl
      (afterStep .add_bank_accounts .fetch_accounts_and_bank) (some seen)).isSome = true := by
  cases hx : w.XS2A with
  | none => simp [startKlarnaOpenBankingXS2AApp, hx, afterStep]
  | some startFlow =>
    cases ht : getProp session "client_token" with
    | error e => simp [startKlarnaOpenBankingXS2AApp, hx, ht, afterStep]
    | ok client_token =>
      cases ho : startFlow client_token with
      | finished =>
        simp [startKlarnaOpenBankingXS2AApp, hx, ht, ho, afterStep,
          after_complete_accounts_flow]
      | _ => simp [startKlarnaOpenBankingXS2AApp, hx, ht, ho, afterStep]

theorem after_render_xs2a_app (me : KlarnaKosmaConnect) (session : JsVal) (w : World)
    (document : List Element) (seen : Bool) :
    ((dropPromise (render_xs2a_app me session w document).2).foldl
      (afterStep .add_bank_accounts .fetch_accounts_and_bank) (some seen)).isSome = true := by
  have h := after_startKlarnaOpenBankingXS2AApp me session w seen
  cases hd : document.any isLauncher with
  | true =>
    simp [render_xs2a_app, await_load_script, load_script, hd, dropPromise, h]
  | false =>
    cases he : w.scriptEvent <;>
      simp [render_xs2a_app, await_load_script, load_script, hd, he, scriptListener,
        dropPromise, List.foldl_append, afterStep, h]

theorem after_run_fetch (opts : Opts) (w : World) (document : List Element) :
    onlyAfterResolved .fetch_accounts_and_bank .get_client_token (run opts w document).trace
      = true := by
  unfold onlyAfterResolved
  cases ha : truthy opts.account with
  | true =>
    rw [(run_of_truthy opts w document ha).1]
    cases hc : w.frm_call .sync_transactions
        (.obj [("account", (KlarnaKosmaConnect.new opts).account)]) <;>
      simp [complete_transactions_flow, frm_call, hc, dropPromise, afterStep]
  | false =>
    cases hc : w.frm_call .get_client_token (.obj [("current_flow", .str "accounts")]) with
    | rejected e => simp [run_of_falsy_rejected opts w document e ha hc, afterStep]
    | resolved resp =>
      simp [(run_of_falsy_resolved opts w document resp ha hc).1, afterStep, after_seen]

theorem after_run_add (opts : Opts) (w : World) (document : List Element) :
    onlyAfterResolved .add_bank_accounts .fetch_accounts_and_bank (run opts w document).trace
      = true := by
  unfold onlyAfterResolved
  cases ha : truthy opts.account with
  | true =>
    rw [(run_of_truthy opts w document ha).1]
    cases hc : w.frm_call .sync_transactions
        (.obj [("account", (KlarnaKosmaConnect.new opts).account)]) <;>
      simp [complete_transactions_flow, frm_call, hc, dropPromise, afterStep]
  | false =>
    cases hc : w.frm_call .get_client_token (.obj [("current_flow", .str "accounts")]) with
    | rejected e => simp [run_of_falsy_rejected opts w document e ha hc, afterStep]
    | resolved resp =>
      simp [(run_of_falsy_resolved opts w document resp ha hc).1, afterStep,
        after_render_xs2a_app]

/-- C8: in the trace of every run (every context, every answer of the backend,
of the script element and of the widget, every document) no two remote calls
are in flight at the same time, every `fetch_accounts_and_bank` call is issued
after the `get_client_token` call has resolved, and every `add_bank_accounts`
call is issued after the `fetch_accounts_and_bank` call has resolved. -/
theorem sequential_ordering (opts : Opts) (w : World) (document : List Element) :
    oneAtATime (run opts w document).trace = true ∧
    onlyAfterResolved .fetch_accounts_and_bank .get_client_token (run opts w document).trace
      = true ∧
    onlyAfterResolved .add_bank_accounts .fetch_accounts_and_bank (run opts w document).trace
      = true := by
  refine ⟨?_, after_run_fetch opts w document, after_run_add opts w document⟩
  simp [oneAtATime, flight_run]

/-- The ordering predicates are not vacuous: they reject a trace with two calls
in flight, and one that fetches before the session is acquired. -/
theorem ordering_predicates_reject :
    oneAtATime [.call .get_client_token .undefined, .call .sync_transactions .undefined,
      .settled .get_client_token true, .settled .sync_transactions true] = false ∧
    onlyAfterResolved .fetch_accounts_and_bank .get_client_token
      [.call .get_client_token .undefined, .call .fetch_accounts_and_bank .undefined] = false := by
  decide

/-! ## The sync scenario and the contexts with both or neither -/

/-- C6: for every context with only an account set (account `a` truthy, company
`c` not), whatever the backend answers, the run issues exactly one remote call,
`sync_transactions` with args `{account: a}`; it produces no script or widget
event and leaves the document as it was. -/
theorem sync_scenario (a c : JsVal) (w : World) (document : List Element)
    (ha : truthy a = true) (_hc : truthy c = false) :
    remoteCalls (run { company := c, account := a } w document).trace
        = [(.sync_transactions, .obj [("account", a)])] ∧
      (run { company := c, account := a } w document).trace.any isScriptOrWidget = false ∧
      (run { company := c, account := a } w document).document = document := by
  have h := run_of_truthy { company := c, account := a } w document ha
  have h2 := remoteCalls_sync (KlarnaKosmaConnect.new { company := c, account := a }) w
  rw [h.1]
  exact ⟨h2.1, h2.2, h.2⟩

/-- Witness of C6: the context `{account: "A1"}`. -/
theorem sync_scenario_witness :
    remoteCalls (run syncA1 happyWorld []).trace
        = [(.sync_transactions, .obj [("account", .str "A1")])] ∧
      (run syncA1 happyWorld []).trace.any isScriptOrWidget = false ∧
      (run syncA1 happyWorld []).document = [] :=
  sync_scenario (.str "A1") .undefined happyWorld [] (by decide) (by decide)

/-- C2, as stated, fails: with both company and account set the run issues the
remote call `sync_transactions`, and with neither set it issues
`get_client_token` and goes on through the linking workflow. -/
theorem both_or_neither_counterexample :
    (remoteCalls (run bothSet happyWorld []).trace).map Prod.fst = [.sync_transactions] ∧
    (remoteCalls (run neitherSet happyWorld []).trace).map Prod.fst
      = [.get_client_token, .fetch_accounts_and_bank, .add_bank_accounts] := by
  decide

/-- C2, amended: a context with both company and account set is run as a sync
run, whose only remote call is `sync_transactions` with the account; a context
with neither is run as a linking run, whose first event is the remote call
`get_client_token` with `current_flow` "accounts". -/
theorem both_or_neither_runs (opts : Opts) (w : World) (document : List Element) :
    (truthy opts.company = true → truthy opts.account = true →
      remoteCalls (run opts w document).trace
        = [(.sync_transactions, .obj [("account", opts.account)])]) ∧
    (truthy opts.company = false → truthy opts.account = false →
      (run opts w document).trace.head?
        = some (.call .get_client_token (.obj [("current_flow", .str "accounts")]))) := by
  constructor
  · intro _ ha
    rw [(run_of_truthy opts w document ha).1]
    exact (remoteCalls_sync (KlarnaKosmaConnect.new opts) w).1
  · intro _ ha
    cases hc : w.frm_call .get_client_token (.obj [("current_flow", .str "accounts")]) with
    | rejected e => simp [run_of_falsy_rejected opts w document e ha hc]
    | resolved resp => simp [(run_of_falsy_resolved opts w document resp ha hc).1]

/-- Witness of C2 at the contexts with both and with neither. -/
theorem both_or_neither_runs_witness :
    remoteCalls (run bothSet happyWorld []).trace
        = [(.sync_transactions, .obj [("account", .str "A1")])] ∧
    (run neitherSet happyWorld []).trace.head?
        = some (.call .get_client_token (.obj [("current_flow", .str "accounts")])) :=
  ⟨(both_or_neither_runs bothSet happyWorld []).1 (by decide) (by decide),
   (both_or_neither_runs neitherSet happyWorld []).2 (by decide) (by decide)⟩

/-! ## Script loading -/

theorem launcherCount_load_script (document : List Element) (h : launcherCount document ≤ 1) :
    launcherCount (load_script document).1 ≤ 1 := by
  cases hd : document.any isLauncher with
  | true => simpa [load_script, hd] using h
  | false =>
    have h0 : document.countP isLauncher = 0 := by
      rw [List.countP_eq_zero]
      intro el hel
      have := List.any_eq_false.mp hd el hel
      simpa using this
    simp [load_script, hd, launcherCount, List.countP_append, h0, isLauncher]

theorem launcherCount_loadTimes (n : Nat) (document : List Element)
    (h : launcherCount document ≤ 1) : launcherCount (loadTimes n document) ≤ 1 := by
  induction n generalizing document with
  | zero => simpa [loadTimes] using h
  | succ n ih => exact ih _ (launcherCount_load_script document h)

/-- C9: on every document that already contains the launcher script element,
`load_script` injects nothing (the document is unchanged, no event), its
promise is resolved when the executor returns, `await` does not wait for any
script event and `render_xs2a_app` goes straight to the widget start; and on
every document with at most one launcher element, any number of consecutive
`load_script` calls leaves at most one. -/
theorem load_script_idempotent (document : List Element) :
    (document.any isLauncher = true →
      load_script document = (document, [], .resolved) ∧
      (∀ w, await_load_script w document = (document, ⟨[], .ok ()⟩)) ∧
      (∀ me session w, render_xs2a_app me session w document
        = (document, ⟨startKlarnaOpenBankingXS2AApp me session w, .ok ()⟩))) ∧
    (launcherCount document ≤ 1 → ∀ n, launcherCount (loadTimes n document) ≤ 1) := by
  constructor
  · intro h
    simp [load_script, await_load_script, render_xs2a_app, h]
  · intro h n
    exact launcherCount_loadTimes n document h

/-- Witness of C9: a document that holds the launcher element once; three
consecutive calls on the empty document leave exactly one. -/
theorem load_script_idempotent_witness :
    load_script [launcher] = ([launcher], [], .resolved) ∧
    launcherCount (loadTimes 3 []) ≤ 1 ∧ loadTimes 3 [] = [launcher] :=
  ⟨((load_script_idempotent [launcher]).1 (by decide)).1,
   (load_script_idempotent []).2 (by decide) 3, by decide⟩

/-! ## Failures before the widget -/

theorem remoteCalls_append (s t : List Event) :
    remoteCalls (s ++ t) = remoteCalls s ++ remoteCalls t := by
  induction s with
  | nil => rfl
  | cons ev rest ih => cases ev <;> simp [remoteCalls, ih]

theorem callsOf_append (m : Method) (s t : List Event) :
    callsOf m (s ++ t) = callsOf m s ++ callsOf m t := by
  simp [callsOf, remoteCalls_append]

/-- C10: in every linking run, if the `get_client_token` call fails, the widget
is never started, no `fetch_accounts_and_bank` or `add_bank_accounts` call is
issued, and no element is injected (the document is unchanged); and if the
document has no launcher element and the injected one fires `error` or `abort`,
the widget is never started and neither call is issued. -/
theorem fatal_failures (opts : Opts) (w : World) (document : List Element)
    (ha : truthy opts.account = false) :
    ((∃ e, w.frm_call .get_client_token (.obj [("current_flow", .str "accounts")])
        = .rejected e) →
      (run opts w document).trace.any isStartFlow = false ∧
      callsOf .fetch_accounts_and_bank (run opts w document).trace = [] ∧
      callsOf .add_bank_accounts (run opts w document).trace = [] ∧
      (run opts w document).trace.any isAppendChild = false ∧
      (run opts w document).document = document) ∧
    (document.any isLauncher = false → (w.scriptEvent = .error ∨ w.scriptEvent = .abort) →
      (run opts w document).trace.any isStartFlow = false ∧
      callsOf .fetch_accounts_and_bank (run opts w document).trace = [] ∧
      callsOf .add_bank_accounts (run opts w document).trace = []) := by
  constructor
  · rintro ⟨e, hc⟩
    have h := run_of_falsy_rejected opts w document e ha hc
    rw [h.1]
    exact ⟨by simp [isStartFlow], by simp [callsOf, remoteCalls], by simp [callsOf, remoteCalls],
      by simp [isAppendChild], h.2⟩
  · intro hd he
    cases hc : w.frm_call .get_client_token (.obj [("current_flow", .str "accounts")]) with
    | rejected e =>
      rw [(run_of_falsy_rejected opts w document e ha hc).1]
      simp [isStartFlow, callsOf, remoteCalls]
    | resolved resp =>
      rw [(run_of_falsy_resolved opts w document resp ha hc).1]
      rcases he with he | he <;>
        simp [render_xs2a_app, await_load_script, load_script, hd, he, scriptListener,
          dropPromise, isStartFlow, callsOf, remoteCalls]

/-- Witness of C10: the session cannot be acquired; and the script fires
`error`. -/
theorem fatal_failures_witness :
    (run linkingC1 tokenFailsWorld []).trace.any isStartFlow = false ∧
    (run linkingC1 tokenFailsWorld []).document = [] ∧
    (run linkingC1 { happyWorld with scriptEvent := .error } []).trace.any isStartFlow = false ∧
    callsOf .fetch_accounts_and_bank
      (run linkingC1 { happyWorld with scriptEvent := .error } []).trace = [] :=
  ⟨((fatal_failures linkingC1 tokenFailsWorld [] (by decide)).1 ⟨_, rfl⟩).1,
   ((fatal_failures linkingC1 tokenFailsWorld [] (by decide)).1 ⟨_, rfl⟩).2.2.2.2,
   ((fatal_failures linkingC1 { happyWorld with scriptEvent := .error } [] (by decide)).2
      (by decide) (Or.inl rfl)).1,
   ((fatal_failures linkingC1 { happyWorld with scriptEvent := .error } [] (by decide)).2
      (by decide) (Or.inl rfl)).2.1⟩

/-! ## After the widget -/

theorem afterWidget_fetch_accounts_data (session : JsVal) (w : World) :
    (fetch_accounts_data session w).1.all isAfterWidget = true := by
  cases hs : getProp session "session_id_short" with
  | error e => simp [fetch_accounts_data, hs, isAfterWidget]
  | ok sid =>
    cases hc : w.frm_call .fetch_accounts_and_bank (.obj [("session_id_short", sid)]) with
    | rejected e => simp [fetch_accounts_data, hs, frm_call, hc, isAfterWidget]
    | resolved d =>
      by_cases hb : (!truthy d.message || truthy d.exc) = true <;>
        simp [fetch_accounts_data, hs, frm_call, hc, hb, isAfterWidget]

theorem afterWidget_add_bank_accounts (me : KlarnaKosmaConnect) (w : World)
    (flow_data : Option Response) (bank_name : JsVal) :
    (add_bank_accounts me w flow_data bank_name).all isAfterWidget = true := by
  cases flow_data with
  | none => simp [add_bank_accounts, isAfterWidget]
  | some data =>
    cases hm : truthy data.message with
    | false => simp [add_bank_accounts, hm]
    | true =>
      cases hc : w.frm_call .add_bank_accounts
          (.obj [("accounts", data.message), ("company", me.company), ("bank_name", bank_name)]) with
      | rejected e => simp [add_bank_accounts, hm, frm_call, hc, isAfterWidget]
      | resolved r =>
        cases hx : truthy r.exc <;> simp [add_bank_accounts, hm, frm_call, hc, hx, isAfterWidget]

theorem afterWidget_complete_accounts_flow (me : KlarnaKosmaConnect) (session : JsVal)
    (w : World) :
    (dropPromise (complete_accounts_flow me session w)).all isAfterWidget = true := by
  have h := afterWidget_fetch_accounts_data session w
  rcases hf : fetch_accounts_data session w with ⟨t, flow_data⟩
  rw [hf] at h
  simp only at h
  cases flow_data with
  | none => simp [complete_accounts_flow, hf, dropPromise, List.all_append, h, isAfterWidget]
  | some data =>
    cases hb : getProp data.message "bank_name" with
    | error e =>
      simp [complete_accounts_flow, hf, hb, dropPromise, List.all_append, h, isAfterWidget]
    | ok bank_name =>
      have h2 := afterWidget_add_bank_accounts me w (some data) bank_name
      simp [complete_accounts_flow, hf, hb, dropPromise, List.all_append, h, h2]

theorem any_eq_false_of_afterWidget (p : Event → Bool) (trace : List Event)
    (hp : ∀ ev, isAfterWidget ev = true → p ev = false)
    (h : trace.all isAfterWidget = true) : trace.any p = false := by
  rw [List.any_eq_false]
  intro ev hev
  have := hp ev (List.all_eq_true.mp h ev hev)
  simp [this]

theorem errorOrAbort_complete_accounts_flow (me : KlarnaKosmaConnect) (session : JsVal)
    (w : World) :
    (dropPromise (complete_accounts_flow me session w)).any isErrorOrAbort = false := by
  apply any_eq_false_of_afterWidget _ _ _ (afterWidget_complete_accounts_flow me session w)
  intro ev
  cases ev <;> simp [isAfterWidget, isErrorOrAbort]

theorem render_of_launcher (me : KlarnaKosmaConnect) (session : JsVal) (w : World)
    (document : List Element) (hd : document.any isLauncher = true) :
    dropPromise (render_xs2a_app me session w document).2
      = startKlarnaOpenBankingXS2AApp me session w := by
  simp [render_xs2a_app, await_load_script, load_script, hd, dropPromise]

theorem render_of_load (me : KlarnaKosmaConnect) (session : JsVal) (w : World)
    (document : List Element) (hd : document.any isLauncher = false)
    (he : w.scriptEvent = .load) :
    dropPromise (render_xs2a_app me session w document).2
      = [.appendChild launcher, .scriptFired .load]
          ++ startKlarnaOpenBankingXS2AApp me session w := by
  simp [render_xs2a_app, await_load_script, load_script, hd, he, scriptListener, dropPromise,
    launcher]

theorem render_of_failure (me : KlarnaKosmaConnect) (session : JsVal) (w : World)
    (document : List Element) (hd : document.any isLauncher = false)
    (he : w.scriptEvent ≠ .load) :
    ∃ e, dropPromise (render_xs2a_app me session w document).2
      = [.appendChild launcher, .scriptFired w.scriptEvent, .unhandledRejection e] := by
  cases hs : w.scriptEvent with
  | load => exact absurd hs he
  | error =>
    exact ⟨"script error", by simp [render_xs2a_app, await_load_script, load_script, hd, hs,
      scriptListener, dropPromise, launcher]⟩
  | abort =>
    exact ⟨"script abort", by simp [render_xs2a_app, await_load_script, load_script, hd, hs,
      scriptListener, dropPromise, launcher]⟩

theorem shape_startKlarnaOpenBankingXS2AApp (me : KlarnaKosmaConnect) (session : JsVal)
    (w : World)
    (h : (startKlarnaOpenBankingXS2AApp me session w).any isErrorOrAbort = true) :
    ∃ token tail,
      ((∃ e, tail = [.onError, .console_error ("onError: something bad happened. " ++ e)]) ∨
        tail = [.onAbort, .console_log "Kosma Authentication Aborted"]) ∧
      startKlarnaOpenBankingXS2AApp me session w = .startFlow token :: tail := by
  cases hx : w.XS2A with
  | none => simp [startKlarnaOpenBankingXS2AApp, hx, isErrorOrAbort] at h
  | some startFlow =>
    cases ht : getProp session "client_token" with
    | error e => simp [startKlarnaOpenBankingXS2AApp, hx, ht, isErrorOrAbort] at h
    | ok client_token =>
      cases ho : startFlow client_token with
      | finished =>
        simp [startKlarnaOpenBankingXS2AApp, hx, ht, ho, isErrorOrAbort,
          errorOrAbort_complete_accounts_flow] at h
      | throws e => simp [startKlarnaOpenBankingXS2AApp, hx, ht, ho, isErrorOrAbort] at h
      | silent => simp [startKlarnaOpenBankingXS2AApp, hx, ht, ho, isErrorOrAbort] at h
      | error e =>
        exact ⟨client_token, _, Or.inl ⟨e, rfl⟩,
          by simp [startKlarnaOpenBankingXS2AApp, hx, ht, ho]⟩
      | aborted =>
        exact ⟨client_token, _, Or.inr rfl,
          by simp [startKlarnaOpenBankingXS2AApp, hx, ht, ho]⟩

theorem shape_run_of_errorOrAbort (opts : Opts) (w : World) (document : List Element)
    (h : (run opts w document).trace.any isErrorOrAbort = true) :
    ∃ pre token tail,
      (pre = [] ∨ pre = [.appendChild launcher, .scriptFired .load]) ∧
      ((∃ e, tail = [.onError, .console_error ("onError: something bad happened. " ++ e)]) ∨
        tail = [.onAbort, .console_log "Kosma Authentication Aborted"]) ∧
      (run opts w document).trace
        = [.call .get_client_token (.obj [("current_flow", .str "accounts")]),
           .settled .get_client_token true] ++ (pre ++ .startFlow token :: tail) := by
  cases ha : truthy opts.account with
  | true =>
    rw [(run_of_truthy opts w document ha).1] at h
    cases hc : w.frm_call .sync_transactions
        (.obj [("account", (KlarnaKosmaConnect.new opts).account)]) <;>
      simp [complete_transactions_flow, frm_call, hc, dropPromise, isErrorOrAbort] at h
  | false =>
    cases hc : w.frm_call .get_client_token (.obj [("current_flow", .str "accounts")]) with
    | rejected e =>
      rw [(run_of_falsy_rejected opts w document e ha hc).1] at h
      simp [isErrorOrAbort] at h
    | resolved resp =>
      rw [(run_of_falsy_resolved opts w document resp ha hc).1] at h ⊢
      cases hd : document.any isLauncher with
      | true =>
        rw [render_of_launcher _ _ _ _ hd] at h ⊢
        simp only [List.any_append, List.any_cons, List.any_nil, isErrorOrAbort, Bool.false_or,
          Bool.or_false] at h
        obtain ⟨token, tail, htail, hs⟩ := shape_startKlarnaOpenBankingXS2AApp _ _ _ h
        exact ⟨[], token, tail, Or.inl rfl, htail, by rw [hs]; rfl⟩
      | false =>
        by_cases he : w.scriptEvent = .load
        · rw [render_of_load _ _ _ _ hd he] at h ⊢
          simp only [List.any_append, List.any_cons, List.any_nil, isErrorOrAbort, Bool.false_or,
            Bool.or_false] at h
          obtain ⟨token, tail, htail, hs⟩ := shape_startKlarnaOpenBankingXS2AApp _ _ _ h
          exact ⟨_, token, tail, Or.inr rfl, htail, by rw [hs]⟩
        · obtain ⟨e, hr⟩ := render_of_failure (KlarnaKosmaConnect.new opts) resp.message w
            document hd he
          rw [hr] at h
          simp [isErrorOrAbort] at h

/-- C7: in every run in which the widget invokes `onError` or `onAbort`, the
trace of the whole run is the resolved `get_client_token` call, the injection
and `load` of the script when the document did not have it, the start of the
widget, the callback and one line on the console (`console.error` with the
error for `onError`, `console.log` for `onAbort`), and nothing after it: the
callback only logs.  So `get_client_token` is the only remote call of the run,
no `fetch_accounts_and_bank` call and no `add_bank_accounts` call is issued, and
nothing is thrown or surfaced: no `frappe.throw` message, no alert and no
unhandled rejection. -/
theorem widget_error_or_abort (opts : Opts) (w : World) (document : List Element)
    (h : (run opts w document).trace.any isErrorOrAbort = true) :
    callsOf .fetch_accounts_and_bank (run opts w document).trace = [] ∧
    callsOf .add_bank_accounts (run opts w document).trace = [] ∧
    (run opts w document).trace.any isSurfaced = false ∧
    remoteCalls (run opts w document).trace
      = [(.get_client_token, .obj [("current_flow", .str "accounts")])] ∧
    ∃ pre token tail,
      (pre = [] ∨ pre = [.appendChild launcher, .scriptFired .load]) ∧
      ((∃ e, tail = [.onError, .console_error ("onError: something bad happened. " ++ e)]) ∨
        tail = [.onAbort, .console_log "Kosma Authentication Aborted"]) ∧
      (run opts w document).trace
        = [.call .get_client_token (.obj [("current_flow", .str "accounts")]),
           .settled .get_client_token true] ++ (pre ++ .startFlow token :: tail) := by
  obtain ⟨pre, token, tail, hpre, htail, ht⟩ := shape_run_of_errorOrAbort opts w document h
  refine ⟨?_, ?_, ?_, ?_, pre, token, tail, hpre, htail, ht⟩ <;>
    · rw [ht]
      rcases hpre with rfl | rfl <;> rcases htail with ⟨e, rfl⟩ | rfl <;>
        simp [callsOf, remoteCalls, isSurfaced]

/-- Witness of C7: the context `{company: "C1"}`, the widget fires `aborted`;
the trace of the run ends with the callback and its line on the console. -/
theorem widget_error_or_abort_witness :
    (run linkingC1 abortedWorld []).trace.any isErrorOrAbort = true ∧
    callsOf .fetch_accounts_and_bank (run linkingC1 abortedWorld []).trace = [] ∧
    callsOf .add_bank_accounts (run linkingC1 abortedWorld []).trace = [] ∧
    (run linkingC1 abortedWorld []).trace.any isSurfaced = false ∧
    remoteCalls (run linkingC1 abortedWorld []).trace
      = [(.get_client_token, .obj [("current_flow", .str "accounts")])] ∧
    (run linkingC1 abortedWorld []).trace
      = [.call .get_client_token (.obj [("current_flow", .str "accounts")]),
         .settled .get_client_token true, .appendChild launcher, .scriptFired .load,
         .startFlow (.str "T"), .onAbort, .console_log "Kosma Authentication Aborted"] :=
  have h := widget_error_or_abort linkingC1 abortedWorld [] (by decide)
  ⟨by decide, h.1, h.2.1, h.2.2.1, h.2.2.2.1, rfl⟩

/-! ## The linking workflow after `finished` -/

theorem startKlarna_of_finished (me : KlarnaKosmaConnect) (session token : JsVal) (w : World)
    (startFlow : JsVal → WidgetOutcome) (hx : w.XS2A = some startFlow)
    (ht : getProp session "client_token" = .ok token) (hf : startFlow token = .finished) :
    startKlarnaOpenBankingXS2AApp me session w
      = [.startFlow token, .onFinished] ++ dropPromise (complete_accounts_flow me session w) := by
  simp [startKlarnaOpenBankingXS2AApp, hx, ht, hf]

theorem fetch_accounts_data_of_payload (S message exc : JsVal) (session : JsVal) (w : World)
    (hs : getProp session "session_id_short" = .ok S)
    (hfetch : w.frm_call .fetch_accounts_and_bank (.obj [("session_id_short", S)])
      = .resolved { message := message, exc := exc })
    (hm : truthy message = true) (hexc : truthy exc = false) :
    fetch_accounts_data session w
      = ([.call .fetch_accounts_and_bank (.obj [("session_id_short", S)]),
          .settled .fetch_accounts_and_bank true],
         some { message := message, exc := exc }) := by
  simp only [fetch_accounts_data, hs]
  simp [frm_call, hfetch, hm, hexc]

theorem complete_accounts_flow_of_payload (me : KlarnaKosmaConnect) (S A B exc : JsVal)
    (session : JsVal) (w : World)
    (hs : getProp session "session_id_short" = .ok S)
    (hfetch : w.frm_call .fetch_accounts_and_bank (.obj [("session_id_short", S)])
      = .resolved { message := .obj [("accounts", A), ("bank_name", B)], exc := exc })
    (hexc : truthy exc = false) :
    dropPromise (complete_accounts_flow me session w)
      = [.call .fetch_accounts_and_bank (.obj [("session_id_short", S)]),
         .settled .fetch_accounts_and_bank true]
        ++ add_bank_accounts me w
            (some { message := .obj [("accounts", A), ("bank_name", B)], exc := exc }) B := by
  have hb : getProp (.obj [("accounts", A), ("bank_name", B)]) "bank_name" = .ok B := rfl
  simp only [complete_accounts_flow,
    fetch_accounts_data_of_payload S _ exc session w hs hfetch rfl hexc, hb, dropPromise]

theorem add_bank_accounts_of_payload (me : KlarnaKosmaConnect) (w : World) (data : Response)
    (bank_name : JsVal) (hm : truthy data.message = true) :
    callsOf .add_bank_accounts (add_bank_accounts me w (some data) bank_name)
        = [.obj [("accounts", data.message), ("company", me.company),
                 ("bank_name", bank_name)]] ∧
      (∀ r, w.frm_call .add_bank_accounts
            (.obj [("accounts", data.message), ("company", me.company),
                   ("bank_name", bank_name)]) = .resolved r →
          truthy r.exc = false →
          (add_bank_accounts me w (some data) bank_name).filter isShowAlert
            = [.show_alert "Bank accounts added"]) := by
  cases hc : w.frm_call .add_bank_accounts
      (.obj [("accounts", data.message), ("company", me.company), ("bank_name", bank_name)]) with
  | rejected e => simp [add_bank_accounts, hm, frm_call, hc, callsOf, remoteCalls]
  | resolved r =>
    cases hx : truthy r.exc <;>
      simp [add_bank_accounts, hm, frm_call, hc, hx, callsOf, remoteCalls, isShowAlert]

theorem happy_path_trace (C T S A B e1 e2 : JsVal) (w : World) (document : List Element)
    (startFlow : JsVal → WidgetOutcome)
    (hgct : w.frm_call .get_client_token (.obj [("current_flow", .str "accounts")])
      = .resolved { message := .obj [("client_token", T), ("session_id_short", S)], exc := e1 })
    (hscript : document.any isLauncher = true ∨ w.scriptEvent = .load)
    (hx : w.XS2A = some startFlow) (hfin : startFlow T = .finished)
    (hfetch : w.frm_call .fetch_accounts_and_bank (.obj [("session_id_short", S)])
      = .resolved { message := .obj [("accounts", A), ("bank_name", B)], exc := e2 })
    (hexc : truthy e2 = false) :
    ∃ pre, (pre = [] ∨ pre = [.appendChild launcher, .scriptFired .load]) ∧
      (run { company := C, account := .undefined } w document).trace
        = [.call .get_client_token (.obj [("current_flow", .str "accounts")]),
           .settled .get_client_token true]
          ++ (pre ++ ([.startFlow T, .onFinished]
            ++ ([.call .fetch_accounts_and_bank (.obj [("session_id_short", S)]),
                 .settled .fetch_accounts_and_bank true]
              ++ add_bank_accounts (KlarnaKosmaConnect.new { company := C, account := .undefined })
                  w (some { message := .obj [("accounts", A), ("bank_name", B)], exc := e2 })
                  B))) := by
  have hstart := startKlarna_of_finished
    (KlarnaKosmaConnect.new { company := C, account := .undefined })
    (.obj [("client_token", T), ("session_id_short", S)]) T w startFlow hx rfl hfin
  rw [complete_accounts_flow_of_payload (KlarnaKosmaConnect.new { company := C, account := .undefined })
    S A B e2 (.obj [("client_token", T), ("session_id_short", S)]) w rfl hfetch hexc] at hstart
  rw [(run_of_falsy_resolved { company := C, account := .undefined } w document _ rfl hgct).1]
  cases hd : document.any isLauncher with
  | true =>
    refine ⟨[], Or.inl rfl, ?_⟩
    rw [render_of_launcher _ _ _ _ hd, hstart]
    rfl
  | false =>
    have he : w.scriptEvent = .load := by
      rcases hscript with h | h
      · rw [hd] at h; cases h
      · exact h
    refine ⟨_, Or.inr rfl, ?_⟩
    rw [render_of_load _ _ _ _ hd he, hstart]

/-- C3, as stated, fails: in the scenario of the spec the `accounts` argument
of `add_bank_accounts` is not the account list `[{id: "A1"}]`. -/
theorem linking_happy_path_counterexample :
    callsOf .add_bank_accounts (run linkingC1 happyWorld []).trace
      ≠ [.obj [("accounts", .arr [.obj [("id", .str "A1")]]), ("company", .str "C1"),
               ("bank_name", .str "Bank X")]] := by
  have h : callsOf .add_bank_accounts (run linkingC1 happyWorld []).trace
      = [.obj [("accounts", payloadA1), ("company", .str "C1"),
               ("bank_name", .str "Bank X")]] := rfl
  rw [h]
  simp [payloadA1]

/-- C3, amended: for every company C, token T, short session id S, account
list A and bank name B, if the context is `{company: C}`, `get_client_token`
with `current_flow` "accounts" returns `{client_token: T, session_id_short: S}`,
the script is present or loads, the widget is started with T and fires
`finished`, and `fetch_accounts_and_bank` with S returns the payload
`{accounts: A, bank_name: B}` without an error flag, then the widget is started
exactly once, with T, and `add_bank_accounts` is called exactly once, with
`accounts` the whole fetched payload `{accounts: A, bank_name: B}`, `company` C
and `bank_name` B; and when that call resolves without an error flag, exactly
one success notification is emitted. -/
theorem linking_happy_path (C T S A B e1 e2 : JsVal) (w : World) (document : List Element)
    (startFlow : JsVal → WidgetOutcome)
    (hgct : w.frm_call .get_client_token (.obj [("current_flow", .str "accounts")])
      = .resolved { message := .obj [("client_token", T), ("session_id_short", S)], exc := e1 })
    (hscript : document.any isLauncher = true ∨ w.scriptEvent = .load)
    (hx : w.XS2A = some startFlow) (hfin : startFlow T = .finished)
    (hfetch : w.frm_call .fetch_accounts_and_bank (.obj [("session_id_short", S)])
      = .resolved { message := .obj [("accounts", A), ("bank_name", B)], exc := e2 })
    (hexc : truthy e2 = false) :
    (run { company := C, account := .undefined } w document).trace.filter isStartFlow
        = [.startFlow T] ∧
    callsOf .add_bank_accounts (run { company := C, account := .undefined } w document).trace
        = [.obj [("accounts", .obj [("accounts", A), ("bank_name", B)]), ("company", C),
                 ("bank_name", B)]] ∧
    (∀ r, w.frm_call .add_bank_accounts
          (.obj [("accounts", .obj [("accounts", A), ("bank_name", B)]), ("company", C),
                 ("bank_name", B)]) = .resolved r →
        truthy r.exc = false →
        (run { company := C, account := .undefined } w document).trace.filter isShowAlert
          = [.show_alert "Bank accounts added"]) := by
  obtain ⟨pre, hpre, ht⟩ :=
    happy_path_trace C T S A B e1 e2 w document startFlow hgct hscript hx hfin hfetch hexc
  have hadd := add_bank_accounts_of_payload
    (KlarnaKosmaConnect.new { company := C, account := .undefined }) w
    { message := .obj [("accounts", A), ("bank_name", B)], exc := e2 } B rfl
  have hafter := afterWidget_add_bank_accounts
    (KlarnaKosmaConnect.new { company := C, account := .undefined }) w
    (some { message := .obj [("accounts", A), ("bank_name", B)], exc := e2 }) B
  have hnostart : (add_bank_accounts
      (KlarnaKosmaConnect.new { company := C, account := .undefined }) w
      (some { message := .obj [("accounts", A), ("bank_name", B)], exc := e2 }) B).filter
        isStartFlow = [] := by
    rw [List.filter_eq_nil_iff]
    intro ev hev
    have := List.all_eq_true.mp hafter ev hev
    cases ev <;> simp_all [isAfterWidget, isStartFlow]
  rw [ht]
  refine ⟨?_, ?_, ?_⟩
  · rcases hpre with rfl | rfl <;>
      simp [List.filter_append, hnostart, isStartFlow, List.filter_cons]
  · rcases hpre with rfl | rfl <;>
      · simp only [callsOf_append, hadd.1]
        rfl
  · intro r hr hrexc
    have h3 := hadd.2 r hr hrexc
    rcases hpre with rfl | rfl <;>
      simp [List.filter_append, h3, isShowAlert, List.filter_cons]

/-- Witness of C3: C = "C1", T = "T", S = "S", A = [{id: "A1"}],
B = "Bank X". -/
theorem linking_happy_path_witness :
    (run linkingC1 happyWorld []).trace.filter isStartFlow = [.startFlow (.str "T")] ∧
    callsOf .add_bank_accounts (run linkingC1 happyWorld []).trace
        = [.obj [("accounts", payloadA1), ("company", .str "C1"),
                 ("bank_name", .str "Bank X")]] ∧
    (run linkingC1 happyWorld []).trace.filter isShowAlert
        = [.show_alert "Bank accounts added"] :=
  have h := linking_happy_path (.str "C1") (.str "T") (.str "S")
    (.arr [.obj [("id", .str "A1")]]) (.str "Bank X") .undefined .undefined happyWorld []
    (fun _ => .finished) rfl (Or.inr rfl) rfl rfl rfl rfl
  ⟨h.1, h.2.1, h.2.2 _ rfl rfl⟩

/-! ## Failures after the widget -/

theorem fetch_accounts_data_of_failure (session sid : JsVal) (w : World)
    (hs : getProp session "session_id_short" = .ok sid)
    (h : ∀ d, w.frm_call .fetch_accounts_and_bank (.obj [("session_id_short", sid)])
      = .resolved d → truthy d.message = false ∨ truthy d.exc = true) :
    (fetch_accounts_data session w).2 = none := by
  simp only [fetch_accounts_data, hs]
  cases hc : w.frm_call .fetch_accounts_and_bank (.obj [("session_id_short", sid)]) with
  | rejected e => simp [frm_call, hc]
  | resolved d =>
    rcases h d hc with hm | hx
    · simp [frm_call, hc, hm]
    · simp [frm_call, hc, hx]

theorem complete_accounts_flow_of_failure (me : KlarnaKosmaConnect) (session : JsVal)
    (w : World) (h : (fetch_accounts_data session w).2 = none) :
    (complete_accounts_flow me session w).result
        = .error "TypeError: Cannot read properties of undefined (reading message)" ∧
      callsOf .add_bank_accounts (complete_accounts_flow me session w).trace = [] := by
  rcases hf : fetch_accounts_data session w with ⟨t, flow_data⟩
  rw [hf] at h
  simp only at h
  subst h
  have hsid : callsOf .add_bank_accounts (fetch_accounts_data session w).1 = [] := by
    cases hs : getProp session "session_id_short" with
    | error e => simp [fetch_accounts_data, hs, callsOf, remoteCalls]
    | ok sid =>
      cases hc : w.frm_call .fetch_accounts_and_bank (.obj [("session_id_short", sid)]) with
      | rejected e => simp [fetch_accounts_data, hs, frm_call, hc, callsOf, remoteCalls]
      | resolved d =>
        by_cases hb : (!truthy d.message || truthy d.exc) = true <;>
          simp [fetch_accounts_data, hs, frm_call, hc, hb, callsOf, remoteCalls]
  rw [hf] at hsid
  simpa [complete_accounts_flow, hf] using hsid

theorem add_bank_accounts_of_rejection (me : KlarnaKosmaConnect) (w : World) (data : Response)
    (bank_name : JsVal) (e : String) (hm : truthy data.message = true)
    (hc : w.frm_call .add_bank_accounts
        (.obj [("accounts", data.message), ("company", me.company), ("bank_name", bank_name)])
      = .rejected e) :
    add_bank_accounts me w (some data) bank_name
      = [.call .add_bank_accounts
           (.obj [("accounts", data.message), ("company", me.company), ("bank_name", bank_name)]),
         .settled .add_bank_accounts false, .unhandledRejection e] := by
  simp [add_bank_accounts, hm, frm_call, hc]

/-- C4 at its failing input: the widget fires `finished` and the response of
`fetch_accounts_and_bank` has no payload.  No `add_bank_accounts` call is
issued, but the promise of `complete_accounts_flow` is rejected with a
`TypeError`, which ends the trace of the run as an unhandled rejection. -/
theorem fetch_failure_is_unhandled :
    callsOf .add_bank_accounts (run linkingC1 noPayloadWorld []).trace = [] ∧
    (complete_accounts_flow (KlarnaKosmaConnect.new linkingC1) sessionTS noPayloadWorld).result
      = .error "TypeError: Cannot read properties of undefined (reading message)" ∧
    (run linkingC1 noPayloadWorld []).trace.filter isSurfaced
      = [.frappe_throw "Failed to fetch Bank Accounts.",
         .unhandledRejection
           "TypeError: Cannot read properties of undefined (reading message)"] :=
  ⟨rfl, rfl, rfl⟩

/-- C5 at its failing input: the happy path up to `add_bank_accounts`, whose
remote call is rejected.  No success notification is emitted, but the `catch`
of `add_bank_accounts` writes nothing to the console and the rejection ends the
trace of the run as an unhandled rejection. -/
theorem add_failure_is_unhandled :
    (run linkingC1 addFailsWorld []).trace.any isShowAlert = false ∧
    (run linkingC1 addFailsWorld []).trace.any isConsoleLog = false ∧
    (run linkingC1 addFailsWorld []).trace.filter isSurfaced
      = [.unhandledRejection "add_bank_accounts failed"] :=
  ⟨rfl, rfl, rfl⟩

end KlarnaKosma
